import Mathlib

/-!
Verification of the message-processing pipeline of the distributed-queue
worker (src/python-worker/worker.py): the pre-send sampling-override filter
`before_send`, the trace-header parsing and span lifecycle inside
`process_message`, and the polling loop of `main`.

The Python dictionaries handled by `before_send` are embedded as association
lists of string keys and `EValue` values; `dict.get`, the `in` operator and
item assignment are embedded by `dictGet`, `hasKey` and `dictSet`.  Python
`str.split(sep)` for a one-character separator is embedded by `pySplit`
(splitting at every occurrence of the separator, keeping empty segments, and
yielding a single segment when the separator does not occur — including for
the empty string).  Effects of the Sentry SDK, which is an external library
and not part of the repository, are modelled from the spec where the spec
describes them (span creation from a remote context, close-on-exit status,
flush); every model parameter standing for such an effect is documented at
its definition.
-/

namespace Worker

/-- An instance for deciding equality of `Except` values, used to evaluate
results of the embedded `process_message` on concrete inputs. -/
instance {ε α : Type} [DecidableEq ε] [DecidableEq α] : DecidableEq (Except ε α) := fun a b =>
  match a, b with
  | .ok x, .ok y => if h : x = y then .isTrue (by rw [h]) else .isFalse (by simp [h])
  | .error x, .error y => if h : x = y then .isTrue (by rw [h]) else .isFalse (by simp [h])
  | .ok _, .error _ => .isFalse (by simp)
  | .error _, .ok _ => .isFalse (by simp)

/-! ## Event dictionaries and the pre-send filter `before_send` -/

/-- A Python value stored in an event dictionary: the embedding distinguishes
booleans (since `before_send` tests `event.get('sampled') is not True`),
strings (since it tests `event.get('type') == 'transaction'`), and keeps every
other value abstract as a numbered blob. -/
inductive EValue where
  | bool (b : Bool)
  | str (s : String)
  | blob (n : Nat)
deriving DecidableEq, Repr

/-- A Python dict with string keys, as an association list in insertion
order. -/
abbrev Event := List (String × EValue)

/-- `d.get(k)`: the value at the first occurrence of key `k`, if any. -/
def dictGet (d : Event) (k : String) : Option EValue :=
  match d with
  | [] => none
  | (k', v) :: rest => if k' = k then some v else dictGet rest k

/-- `k in d`. -/
def hasKey (d : Event) (k : String) : Bool :=
  (dictGet d k).isSome

/-- `d[k] = v`: update the first occurrence of `k` in place, else append. -/
def dictSet (d : Event) (k : String) (v : EValue) : Event :=
  match d with
  | [] => [(k, v)]
  | (k', v') :: rest => if k' = k then (k', v) :: rest else (k', v') :: dictSet rest k v

/-- The trace-bearing test of `before_send` (worker.py line 27): the event's
`type` equals `'transaction'`, or the event has a `transaction` key, or it has
a `spans` key. -/
def isTraceBearing (event : Event) : Bool :=
  dictGet event "type" = some (.str "transaction") || hasKey event "transaction"
    || hasKey event "spans"

/-- Embeds `before_send` (worker.py lines 20-41).  For a trace-bearing event
whose `sampled` entry is missing or not the boolean `True`
(`'sampled' not in event or event.get('sampled') is not True`), it sets
`sampled` to `True`; in every case it returns the event.  The return type is
`Option Event` because the Sentry SDK contract lets a pre-send hook drop an
event by returning `None`; this hook never does. -/
def before_send {α : Type} (event : Event) (hint : α) : Option Event :=
  if isTraceBearing event then
    if dictGet event "sampled" = some (.bool true) then some event
    else some (dictSet event "sampled" (.bool true))
  else some event

/-! ## Trace-header parsing -/

/-- Helper for `pySplit`: `acc` is the segment being accumulated. -/
def pySplitAux (sep : Char) : List Char → List Char → List String
  | [], acc => [String.mk acc]
  | c :: cs, acc =>
    if c = sep then String.mk acc :: pySplitAux sep cs []
    else pySplitAux sep cs (acc ++ [c])

/-- Embeds Python `s.split(sep)` for a one-character separator: splits at
every occurrence of `sep`, keeping empty segments; a string without the
separator (including `""`) yields the one-element list `[s]`. -/
def pySplit (s : String) (sep : Char) : List String :=
  pySplitAux sep s.data []

/-- The trace context extracted from a `sentryTrace` header (worker.py lines
87-98): `trace_id`, `parent_span_id` and `trace_sampled_flag` are the
segments at positions 0, 1 and 2 when present. -/
structure ParsedTrace where
  trace_id : Option String
  parent_span_id : Option String
  trace_sampled : Bool
deriving DecidableEq, Repr

/-- Embeds the parsing of `sentry_trace` in `process_message` (worker.py
lines 87-98): split on `'-'`, take segments 0, 1, 2 guarded by length checks,
and compare the third segment with the literal `'1'`
(`trace_sampled = trace_sampled_flag == '1'`; a missing flag compares
unequal). -/
def parseSentryTrace (s : String) : ParsedTrace :=
  let trace_parts := pySplit s '-'
  { trace_id := trace_parts[0]?
    parent_span_id := trace_parts[1]?
    trace_sampled :=
      match trace_parts[2]? with
      | some flag => flag == "1"
      | none => false }

/-! ## Messages, spans and `process_message` -/

/-- A queue message as read by `process_message` via `message.get(...)`:
every field is optional. -/
structure Message where
  MessageId : Option String := none
  taskType : Option String := none
  sentryTrace : Option String := none
  baggage : Option String := none
deriving DecidableEq, Repr

/-- Python truthiness of `message.get('sentryTrace')`: `None` and the empty
string are falsy. -/
def strTruthy : Option String → Bool
  | none => false
  | some s => !(s == "")

/-- Final status of a closed span. -/
inductive SpanStatus where
  | ok
  | error
  | unset
deriving DecidableEq, Repr

/-- A span of the telemetry model: identifier fields, the sampling decision,
the tag set and the close status. -/
structure Span where
  trace_id : String
  span_id : String
  parent_span_id : Option String
  sampled : Bool
  tags : List (String × String)
  status : SpanStatus
deriving DecidableEq, Repr

/-- The `span_info` record built in `process_message` (worker.py lines
138-142); each field is optional because the code guards the attribute reads
with `hasattr`. -/
structure SpanInfo where
  trace_id : Option String
  span_id : Option String
  parent_span_id : Option String
deriving DecidableEq, Repr

/-- The dictionary returned by `process_message` (worker.py lines 151-156 and
166-171). -/
structure WorkResult where
  success : Bool
  processedBy : String
  processedAt : Nat
  span : Option SpanInfo := none
  warning : Option String := none
deriving DecidableEq, Repr

/-- A fault (Python exception) raised during processing, identified by its
message. -/
abbrev Fault := String

/-- Everything observable about one `process_message` call: the returned
value or the propagated fault, the spans closed by the SDK in close order
(child before root), and the `sentry_sdk.flush` calls as (timeout in seconds,
outcome) pairs. -/
structure ProcOutcome where
  result : Except Fault WorkResult
  closedSpans : List Span
  flushCalls : List (Nat × Bool)
deriving DecidableEq, Repr

/-- Embeds `process_message` (worker.py lines 57-171).

Parameters model the ambient effects of the call:
* `now` — the clock value returned by `time.time()`;
* `rootSpanId`, `childSpanId` — the span identifiers freshly generated by the
  SDK for the transaction and for the nested `gpu.inference` span;
* `workFault` — when `some f`, a fault `f` raised inside the unit of work
  (the body of the nested span); the surrounding `try`/`except` re-raises it
  (worker.py line 161);
* `flushOk` — the outcome of `sentry_sdk.flush(timeout=2.0)`.

The Sentry SDK span machinery is external to the repository and is modelled
from the spec: `continue_trace`/`start_transaction` open a root span whose
`trace_id`, `parent_span_id` and `sampled` come from the parsed remote
context; `start_span` opens a child span inheriting the root's `trace_id`
with the root as parent; leaving a `with` block closes the span with status
`ok` on normal exit and status `error` when a fault is propagating. -/
def process_message (message : Message) (now : Nat) (rootSpanId childSpanId : String)
    (workFault : Option Fault) (flushOk : Bool) : ProcOutcome :=
  let sentry_trace := message.sentryTrace
  if strTruthy sentry_trace then
    let parsed := parseSentryTrace (sentry_trace.getD "")
    let transaction : Span :=
      { trace_id := parsed.trace_id.getD ""
        span_id := rootSpanId
        parent_span_id := parsed.parent_span_id
        sampled := parsed.trace_sampled
        tags := []
        status := .unset }
    let child : Span :=
      { trace_id := transaction.trace_id
        span_id := childSpanId
        parent_span_id := some transaction.span_id
        sampled := transaction.sampled
        tags := []
        status := .unset }
    match workFault with
    | some f =>
      { result := .error f
        closedSpans := [{ child with status := .error }, { transaction with status := .error }]
        flushCalls := [] }
    | none =>
      let tagged : Span :=
        { transaction with
            tags := [("task.type", message.taskType.getD "unknown"),
                     ("processed.by", "python-worker")] }
      let span_info : SpanInfo :=
        { trace_id := some tagged.trace_id
          span_id := some tagged.span_id
          parent_span_id := tagged.parent_span_id }
      { result := .ok { success := true
                        processedBy := "python-worker"
                        processedAt := now
                        span := some span_info }
        closedSpans := [{ child with status := .ok }, { tagged with status := .ok }]
        flushCalls := [(2, flushOk)] }
  else
    { result := .ok { success := true
                      processedBy := "python-worker"
                      processedAt := now
                      warning := some "no_trace_context" }
      closedSpans := []
      flushCalls := [] }

/-! ## The worker loop of `main` -/

/-- The ambient effects of one `process_message` call inside the loop. -/
structure MsgEnv where
  now : Nat
  rootSpanId : String
  childSpanId : String
  workFault : Option Fault
  flushOk : Bool
deriving DecidableEq, Repr

/-- One observable step of the loop body: a processed-message log, a captured
exception, a poll transport failure log, or a non-200 status log. -/
inductive LoopEvent where
  | processed (r : WorkResult)
  | captured (e : Fault)
  | pollFailed
  | badStatus (code : Nat)
deriving DecidableEq, Repr

/-- Embeds the per-message dispatch of `main` (worker.py lines 195-201): for
each message, `process_message` runs inside a `try`; a propagated fault is
logged and reported via `sentry_sdk.capture_exception` and the loop moves on
to the next message. -/
def dispatchMessages : List (Message × MsgEnv) → List LoopEvent
  | [] => []
  | (m, env) :: rest =>
    (match (process_message m env.now env.rootSpanId env.childSpanId env.workFault
        env.flushOk).result with
      | .ok r => LoopEvent.processed r
      | .error e => LoopEvent.captured e) :: dispatchMessages rest

/-- What one poll attempt of the queue API produced: a transport-level fault
(`requests.exceptions.RequestException`: connection refused, timeout, DNS
failure), or an HTTP response with a status code and — when the status is
200 — a batch of messages. -/
inductive PollResult where
  | transportError
  | response (statusCode : Nat) (messages : List (Message × MsgEnv))
deriving DecidableEq, Repr

/-- The outcome of one iteration of the `while True` loop: the events of the
body, the seconds slept before the next poll, and whether the loop continues
to the next iteration. -/
structure IterOutcome where
  events : List LoopEvent
  sleepSeconds : Nat
  continues : Bool
deriving DecidableEq, Repr

/-- Embeds one iteration of the `while True` loop in `main` (worker.py lines
182-209): on a 200 response the messages are dispatched; on any other status
the code logs the status; on a transport fault the code logs the error; in
every case the iteration falls through to `time.sleep(1)` and the loop
continues. -/
def loopIteration (poll : PollResult) : IterOutcome :=
  match poll with
  | .transportError => { events := [.pollFailed], sleepSeconds := 1, continues := true }
  | .response code msgs =>
    if code == 200 then
      { events := dispatchMessages msgs, sleepSeconds := 1, continues := true }
    else
      { events := [.badStatus code], sleepSeconds := 1, continues := true }

end Worker

namespace Worker

/-! ## Helper lemmas -/

/-- Rebuilding a string from its character data is the identity. -/
lemma mk_data (s : String) : String.mk s.data = s := by
  cases s
  rfl

/-- Splitting a separator-free character list yields the single pending
segment. -/
lemma pySplitAux_no_sep (sep : Char) (cs acc : List Char) (h : ∀ c ∈ cs, c ≠ sep) :
    pySplitAux sep cs acc = [String.mk (acc ++ cs)] := by
  induction cs generalizing acc with
  | nil => simp [pySplitAux]
  | cons c cs ih =>
    have hc : c ≠ sep := h c (by simp)
    simp [pySplitAux, hc, ih (acc ++ [c]) (fun d hd => h d (by simp [hd]))]

/-- Splitting past the first separator emits the pending segment and
restarts on the remainder. -/
lemma pySplitAux_append_sep (sep : Char) (cs rest acc : List Char) (h : ∀ c ∈ cs, c ≠ sep) :
    pySplitAux sep (cs ++ sep :: rest) acc = String.mk (acc ++ cs) :: pySplitAux sep rest [] := by
  induction cs generalizing acc with
  | nil => simp [pySplitAux]
  | cons c cs ih =>
    have hc : c ≠ sep := h c (by simp)
    simp [pySplitAux, hc, ih (acc ++ [c]) (fun d hd => h d (by simp [hd]))]

/-- A hyphen-joined triple of hyphen-free segments splits back into the three
segments. -/
lemma pySplit_triple (T P F : String)
    (hT : ∀ c ∈ T.data, c ≠ '-') (hP : ∀ c ∈ P.data, c ≠ '-') (hF : ∀ c ∈ F.data, c ≠ '-') :
    pySplit (T ++ "-" ++ P ++ "-" ++ F) '-' = [T, P, F] := by
  have hdata : (T ++ "-" ++ P ++ "-" ++ F).data
      = T.data ++ '-' :: (P.data ++ '-' :: F.data) := by
    simp [String.data_append]
  rw [pySplit, hdata, pySplitAux_append_sep '-' T.data _ [] hT]
  rw [pySplitAux_append_sep '-' P.data _ [] hP]
  rw [pySplitAux_no_sep '-' F.data [] hF]
  simp [mk_data]

/-- A hyphen-free string splits into itself alone. -/
lemma pySplit_single (T : String) (hT : ∀ c ∈ T.data, c ≠ '-') :
    pySplit T '-' = [T] := by
  rw [pySplit, pySplitAux_no_sep '-' T.data [] hT]
  simp [mk_data]

/-- Parsing a hyphen-joined triple. -/
lemma parse_triple (T P F : String)
    (hT : ∀ c ∈ T.data, c ≠ '-') (hP : ∀ c ∈ P.data, c ≠ '-') (hF : ∀ c ∈ F.data, c ≠ '-') :
    parseSentryTrace (T ++ "-" ++ P ++ "-" ++ F)
      = { trace_id := some T, parent_span_id := some P, trace_sampled := F == "1" } := by
  rw [parseSentryTrace, pySplit_triple T P F hT hP hF]
  rfl

/-- Parsing a single hyphen-free segment. -/
lemma parse_single (T : String) (hT : ∀ c ∈ T.data, c ≠ '-') :
    parseSentryTrace T = { trace_id := some T, parent_span_id := none, trace_sampled := false } := by
  rw [parseSentryTrace, pySplit_single T hT]
  rfl

/-! ## Claim theorems -/

/-- C2: for a `sentryTrace` of the form `"T-P-1"` (three hyphen-separated
segments) parsing yields `traceId = T`, `parentSpanId = P` and a true sampled
flag; a third segment other than the literal `"1"` yields a false flag; a
single segment `"T"` alone yields an absent `parentSpanId` and a false flag.
The parse function is total, so no input string can raise. -/
theorem sentry_trace_parse_spec (T P F : String)
    (hT : ∀ c ∈ T.data, c ≠ '-') (hP : ∀ c ∈ P.data, c ≠ '-') (hF : ∀ c ∈ F.data, c ≠ '-') :
    parseSentryTrace (T ++ "-" ++ P ++ "-" ++ F)
      = { trace_id := some T, parent_span_id := some P, trace_sampled := F == "1" }
    ∧ parseSentryTrace T
      = { trace_id := some T, parent_span_id := none, trace_sampled := false } :=
  ⟨parse_triple T P F hT hP hF, parse_single T hT⟩

/-- Witness for C2 at the concrete headers `"abc-def-1"`, `"abc-def-0"` and
`"abc"`. -/
theorem sentry_trace_parse_spec_witness :
    parseSentryTrace ("abc" ++ "-" ++ "def" ++ "-" ++ "1")
      = { trace_id := some "abc", parent_span_id := some "def", trace_sampled := true }
    ∧ parseSentryTrace ("abc" ++ "-" ++ "def" ++ "-" ++ "0")
      = { trace_id := some "abc", parent_span_id := some "def", trace_sampled := false }
    ∧ parseSentryTrace "abc"
      = { trace_id := some "abc", parent_span_id := none, trace_sampled := false } := by
  have h1 := sentry_trace_parse_spec "abc" "def" "1" (by decide) (by decide) (by decide)
  have h0 := sentry_trace_parse_spec "abc" "def" "0" (by decide) (by decide) (by decide)
  exact ⟨h1.1, h0.1, h1.2⟩

end Worker

namespace Worker

/-- Looking up a key right after setting it yields the new value. -/
lemma dictGet_dictSet (d : Event) (k : String) (v : EValue) :
    dictGet (dictSet d k v) k = some v := by
  induction d with
  | nil => simp [dictSet, dictGet]
  | cons p rest ih =>
    obtain ⟨k', v'⟩ := p
    by_cases h : k' = k
    · simp [dictSet, dictGet, h]
    · simp [dictSet, dictGet, h, ih]

/-- C1: for every event given to the pre-send filter, a trace-bearing event
(type `'transaction'`, or holding a `transaction` or `spans` key) comes back
with `sampled = True`; a trace-bearing event whose `sampled` is already
exactly `True` comes back unchanged; a non-trace-bearing event passes through
unmodified. -/
theorem before_send_sampling_override {α : Type} (event : Event) (hint : α) :
    (isTraceBearing event = true →
        ∃ e, before_send event hint = some e ∧ dictGet e "sampled" = some (.bool true))
    ∧ (isTraceBearing event = true → dictGet event "sampled" = some (.bool true) →
        before_send event hint = some event)
    ∧ (isTraceBearing event = false → before_send event hint = some event) := by
  refine ⟨fun h => ?_, fun h hs => ?_, fun h => ?_⟩
  · by_cases hs : dictGet event "sampled" = some (.bool true)
    · exact ⟨event, by simp [before_send, h, hs], hs⟩
    · exact ⟨dictSet event "sampled" (.bool true), by simp [before_send, h, hs],
        dictGet_dictSet event "sampled" (.bool true)⟩
  · simp [before_send, h, hs]
  · simp [before_send, h]

/-- Witness for C1: a trace-bearing event with `sampled = False` comes back
with `sampled = True`; a trace-bearing event already sampled and a
non-trace-bearing event pass through unchanged. -/
theorem before_send_sampling_override_witness :
    (∃ e, before_send [("type", EValue.str "transaction"), ("sampled", EValue.bool false)] 0
        = some e ∧ dictGet e "sampled" = some (.bool true))
    ∧ before_send [("type", EValue.str "transaction"), ("sampled", EValue.bool true)] 0
        = some [("type", EValue.str "transaction"), ("sampled", EValue.bool true)]
    ∧ before_send [("type", EValue.str "error")] 0 = some [("type", EValue.str "error")] :=
  ⟨(before_send_sampling_override
      [("type", EValue.str "transaction"), ("sampled", EValue.bool false)] 0).1 (by decide),
   (before_send_sampling_override
      [("type", EValue.str "transaction"), ("sampled", EValue.bool true)] 0).2.1
      (by decide) (by decide),
   (before_send_sampling_override [("type", EValue.str "error")] 0).2.2 (by decide)⟩

/-- C10: the pre-send filter returns an event for every input event and
hint — it never returns `None`, so it never drops an event. -/
theorem before_send_never_drops {α : Type} (event : Event) (hint : α) :
    (before_send event hint).isSome = true := by
  unfold before_send
  split
  · split
    · rfl
    · rfl
  · rfl

end Worker

namespace Worker

/-- C3: a message whose `sentryTrace` is absent or empty never raises and
yields `success = True` with the degraded marker
`warning = 'no_trace_context'` and `processedBy = 'python-worker'`, whatever
the ambient effects. -/
theorem process_message_no_trace_degrades (m : Message) (now : Nat) (rId cId : String)
    (wf : Option Fault) (fo : Bool) (h : m.sentryTrace = none ∨ m.sentryTrace = some "") :
    (process_message m now rId cId wf fo).result
      = .ok { success := true, processedBy := "python-worker", processedAt := now,
              warning := some "no_trace_context" } := by
  have ht : strTruthy m.sentryTrace = false := by
    rcases h with h | h <;> simp [h, strTruthy]
  simp [process_message, ht]

/-- Witness for C3 at a message with no `sentryTrace` field, with a fault
injected into the unit of work to show the untraced path still cannot
raise. -/
theorem process_message_no_trace_degrades_witness :
    (process_message {} 0 "r" "c" (some "boom") true).result
      = .ok { success := true, processedBy := "python-worker", processedAt := 0,
              warning := some "no_trace_context" } :=
  process_message_no_trace_degrades {} 0 "r" "c" (some "boom") true (Or.inl rfl)

end Worker

namespace Worker

/-- The dispatch loop handles every message of the batch: one loop event per
message. -/
lemma dispatchMessages_length (l : List (Message × MsgEnv)) :
    (dispatchMessages l).length = l.length := by
  induction l with
  | nil => rfl
  | cons p rest ih =>
    obtain ⟨m, env⟩ := p
    simp only [dispatchMessages, List.length_cons, ih]

/-- C4: a fault propagating out of `process_message` for one message is
caught by the loop and reported as a captured-exception event; the remaining
messages are dispatched exactly as they would be without the fault, every
message of the batch is handled, and the iteration still continues to the
next poll. -/
theorem loop_message_fault_isolated (m : Message) (env : MsgEnv)
    (rest : List (Message × MsgEnv)) (e : Fault)
    (h : (process_message m env.now env.rootSpanId env.childSpanId env.workFault
        env.flushOk).result = .error e) :
    dispatchMessages ((m, env) :: rest) = LoopEvent.captured e :: dispatchMessages rest
    ∧ (dispatchMessages ((m, env) :: rest)).length = ((m, env) :: rest).length
    ∧ (loopIteration (.response 200 ((m, env) :: rest))).continues = true := by
  refine ⟨?_, dispatchMessages_length _, rfl⟩
  simp only [dispatchMessages, h]

/-- Witness for C4: a message whose unit of work raises `"boom"` produces a
captured-exception event and the batch is still fully dispatched. -/
theorem loop_message_fault_isolated_witness :
    dispatchMessages [({ sentryTrace := some "abc-def-1" }, ⟨0, "r", "c", some "boom", true⟩)]
      = [LoopEvent.captured "boom"]
    ∧ (dispatchMessages
        [({ sentryTrace := some "abc-def-1" }, ⟨0, "r", "c", some "boom", true⟩)]).length = 1
    ∧ (loopIteration (.response 200
        [({ sentryTrace := some "abc-def-1" }, ⟨0, "r", "c", some "boom", true⟩)])).continues
      = true :=
  loop_message_fault_isolated { sentryTrace := some "abc-def-1" }
    ⟨0, "r", "c", some "boom", true⟩ [] "boom" (by decide)

end Worker

namespace Worker

/-- C5 counterexample: after a transport-level poll fault, and likewise after
an HTTP 500 response, the loop sleeps exactly 1 second before the next poll —
not approximately 5 seconds as claimed (`time.sleep(1)` runs on every
iteration of `main`; the 5-second figure is the HTTP request timeout, not a
backoff). -/
theorem poll_failure_backoff_counterexample :
    (loopIteration .transportError).sleepSeconds = 1
    ∧ (loopIteration (.response 500 [])).sleepSeconds = 1
    ∧ ¬ (loopIteration .transportError).sleepSeconds = 5
    ∧ ¬ (loopIteration (.response 500 [])).sleepSeconds = 5 := by
  decide

/-- C5 amended: after a failed poll — a transport-level fault or a non-200
HTTP response — the loop logs the failure, does not raise, and waits 1 second
(the fixed per-iteration interval) before the next poll. -/
theorem poll_failure_logged_and_retried (code : Nat) (h : ¬ code = 200)
    (msgs : List (Message × MsgEnv)) :
    loopIteration .transportError
      = { events := [.pollFailed], sleepSeconds := 1, continues := true }
    ∧ loopIteration (.response code msgs)
      = { events := [.badStatus code], sleepSeconds := 1, continues := true } := by
  constructor
  · rfl
  · simp [loopIteration, h]

/-- Witness for the amended C5 at an HTTP 500 response. -/
theorem poll_failure_logged_and_retried_witness :
    loopIteration .transportError
      = { events := [.pollFailed], sleepSeconds := 1, continues := true }
    ∧ loopIteration (.response 500 [])
      = { events := [.badStatus 500], sleepSeconds := 1, continues := true } :=
  poll_failure_logged_and_retried 500 (by decide) []

end Worker

namespace Worker

/-- C6 counterexample: for a traced message whose unit of work raises
`"boom"`, both spans are closed with empty tag sets — the root span is closed
without `task.type` or `processed.by`, because `transaction.set_tag` (worker.py
lines 134-135) runs only after the unit of work, so a fault exit path skips
it.  This refutes the claim that the tags are applied on every exit path. -/
theorem tags_missing_on_fault_path :
    (process_message
        { MessageId := some "m1", taskType := some "infer", sentryTrace := some "abc-def-1" }
        0 "r1" "c1" (some "boom") true).result = .error "boom"
    ∧ ((process_message
        { MessageId := some "m1", taskType := some "infer", sentryTrace := some "abc-def-1" }
        0 "r1" "c1" (some "boom") true).closedSpans.map Span.tags) = [[], []] := by
  decide

/-- C6 amended: on the normal-completion exit path of traced processing, the
tags `task.type` (from the message's `taskType`, defaulting to `"unknown"`)
and `processed.by` (the constant worker identifier) are applied to the root
span before it is closed; on a fault exit path the root span is closed
without them. -/
theorem tags_applied_on_normal_path (m : Message) (now : Nat) (rId cId : String) (fo : Bool)
    (h : strTruthy m.sentryTrace = true) :
    ∃ child root, (process_message m now rId cId none fo).closedSpans = [child, root]
      ∧ root.tags = [("task.type", m.taskType.getD "unknown"),
                     ("processed.by", "python-worker")] := by
  simp only [process_message, h, if_pos]
  exact ⟨_, _, rfl, rfl⟩

/-- Witness for the amended C6 at a traced `infer` message. -/
theorem tags_applied_on_normal_path_witness :
    ∃ child root,
      (process_message { taskType := some "infer", sentryTrace := some "abc-def-1" }
          0 "r1" "c1" none true).closedSpans = [child, root]
      ∧ root.tags = [("task.type", "infer"), ("processed.by", "python-worker")] :=
  tags_applied_on_normal_path { taskType := some "infer", sentryTrace := some "abc-def-1" }
    0 "r1" "c1" true (by decide)

end Worker

namespace Worker

/-- C7: for a traced message, normal completion of the unit of work closes
both spans with status `ok` and returns a success result, while any fault
raised inside the unit of work closes both spans with status `error` before
the fault propagates out of `process_message`.  The close-on-exit status
semantics of the SDK's `with` blocks is modelled from the spec. -/
theorem span_status_ok_or_error (m : Message) (now : Nat) (rId cId : String) (fo : Bool)
    (h : strTruthy m.sentryTrace = true) :
    (∃ child root r, (process_message m now rId cId none fo).closedSpans = [child, root]
        ∧ child.status = .ok ∧ root.status = .ok
        ∧ (process_message m now rId cId none fo).result = .ok r ∧ r.success = true)
    ∧ ∀ f : Fault, ∃ child root,
        (process_message m now rId cId (some f) fo).closedSpans = [child, root]
        ∧ child.status = .error ∧ root.status = .error
        ∧ (process_message m now rId cId (some f) fo).result = .error f := by
  constructor
  · simp only [process_message, h, if_pos]
    exact ⟨_, _, _, rfl, rfl, rfl, rfl, rfl⟩
  · intro f
    simp only [process_message, h, if_pos]
    exact ⟨_, _, rfl, rfl, rfl, trivial⟩

/-- Witness for C7 at a traced message, on the normal path and on a `"boom"`
fault. -/
theorem span_status_ok_or_error_witness :
    (∃ child root r,
        (process_message { sentryTrace := some "abc-def-1" } 0 "r1" "c1" none
            true).closedSpans = [child, root]
        ∧ child.status = .ok ∧ root.status = .ok
        ∧ (process_message { sentryTrace := some "abc-def-1" } 0 "r1" "c1" none
            true).result = .ok r ∧ r.success = true)
    ∧ ∃ child root,
        (process_message { sentryTrace := some "abc-def-1" } 0 "r1" "c1" (some "boom")
            true).closedSpans = [child, root]
        ∧ child.status = .error ∧ root.status = .error
        ∧ (process_message { sentryTrace := some "abc-def-1" } 0 "r1" "c1" (some "boom")
            true).result = .error "boom" :=
  have h := span_status_ok_or_error { sentryTrace := some "abc-def-1" } 0 "r1" "c1" true
    (by decide)
  ⟨h.1, h.2 "boom"⟩

/-- C8: on the successful traced path, exactly one synchronous flush with a
2-second bounded wait is attempted after the unit of work, and the returned
result does not depend on the flush outcome: it is a success result carrying
the worker identifier and the span info whether the flush succeeds or
fails. -/
theorem flush_bounded_and_nonfatal (m : Message) (now : Nat) (rId cId : String)
    (h : strTruthy m.sentryTrace = true) :
    (∀ fo : Bool, (process_message m now rId cId none fo).flushCalls = [(2, fo)])
    ∧ (process_message m now rId cId none true).result
        = (process_message m now rId cId none false).result
    ∧ ∀ fo : Bool, ∃ r, (process_message m now rId cId none fo).result = .ok r
        ∧ r.success = true ∧ r.processedBy = "python-worker" ∧ r.span.isSome = true := by
  refine ⟨fun fo => ?_, ?_, fun fo => ?_⟩
  · simp only [process_message, h, if_pos]
  · simp only [process_message, h, if_pos]
  · simp only [process_message, h, if_pos]
    exact ⟨_, rfl, rfl, rfl, rfl⟩

/-- Witness for C8 at a traced message. -/
theorem flush_bounded_and_nonfatal_witness :
    (∀ fo : Bool, (process_message { sentryTrace := some "abc-def-1" } 0 "r1" "c1" none
        fo).flushCalls = [(2, fo)])
    ∧ (process_message { sentryTrace := some "abc-def-1" } 0 "r1" "c1" none true).result
        = (process_message { sentryTrace := some "abc-def-1" } 0 "r1" "c1" none false).result
    ∧ ∀ fo : Bool, ∃ r,
        (process_message { sentryTrace := some "abc-def-1" } 0 "r1" "c1" none fo).result
          = .ok r
        ∧ r.success = true ∧ r.processedBy = "python-worker" ∧ r.span.isSome = true :=
  flush_bounded_and_nonfatal { sentryTrace := some "abc-def-1" } 0 "r1" "c1" (by decide)

/-- C9: for a message carrying a well-formed trace context `"T-P-F"`, the
root span reuses the remote `traceId` `T` and sets its own `parentSpanId` to
the remote `parentSpanId` `P`, and the child span opened during processing
shares the root span's `traceId` (its parent being the root span), on the
normal path and on the fault path alike.  Span creation from a remote
context is modelled from the spec. -/
theorem trace_continuity_invariant (m : Message) (T P F : String)
    (hT : ∀ c ∈ T.data, c ≠ '-') (hP : ∀ c ∈ P.data, c ≠ '-') (hF : ∀ c ∈ F.data, c ≠ '-')
    (hm : m.sentryTrace = some (T ++ "-" ++ P ++ "-" ++ F))
    (now : Nat) (rId cId : String) (wf : Option Fault) (fo : Bool) :
    ∃ child root, (process_message m now rId cId wf fo).closedSpans = [child, root]
      ∧ root.trace_id = T ∧ root.parent_span_id = some P
      ∧ child.trace_id = root.trace_id ∧ child.parent_span_id = some root.span_id := by
  have hne : (T ++ "-" ++ P ++ "-" ++ F) ≠ "" := by
    intro he
    have hdata : (T ++ "-" ++ P ++ "-" ++ F).data = ([] : List Char) := by
      rw [he]
    have hdata2 : (T ++ "-" ++ P ++ "-" ++ F).data
        = T.data ++ '-' :: (P.data ++ '-' :: F.data) := by
      simp [String.data_append]
    rw [hdata2] at hdata
    simp at hdata
  have hs : strTruthy (some (T ++ "-" ++ P ++ "-" ++ F)) = true := by
    simp [strTruthy, hne]
  cases wf with
  | some f =>
    simp only [process_message, hm, hs, if_pos, Option.getD_some,
      parse_triple T P F hT hP hF]
    exact ⟨_, _, rfl, rfl, rfl, rfl, rfl⟩
  | none =>
    simp only [process_message, hm, hs, if_pos, Option.getD_some,
      parse_triple T P F hT hP hF]
    exact ⟨_, _, rfl, rfl, rfl, rfl, rfl⟩

/-- Witness for C9 at the concrete header `"abc-def-1"`. -/
theorem trace_continuity_invariant_witness :
    ∃ child root,
      (process_message { sentryTrace := some ("abc" ++ "-" ++ "def" ++ "-" ++ "1") }
          0 "r1" "c1" none true).closedSpans = [child, root]
      ∧ root.trace_id = "abc" ∧ root.parent_span_id = some "def"
      ∧ child.trace_id = root.trace_id ∧ child.parent_span_id = some root.span_id :=
  trace_continuity_invariant { sentryTrace := some ("abc" ++ "-" ++ "def" ++ "-" ++ "1") }
    "abc" "def" "1" (by decide) (by decide) (by decide) rfl 0 "r1" "c1" none true

end Worker
